import Mathlib

/-!
Verification of the `ssh_clipboard` core (wire framing, message codec,
daemon request handling, proxy relay) against a shallow embedding of the
Rust sources in `src/framing.rs`, `src/protocol.rs`, `src/daemon.rs` and
`src/proxy.rs`.

Bytes are modelled as `Nat` values below 256, byte streams as `List Nat`,
machine integers as `Nat`/`Int` with explicit `% 2 ^ w` where the Rust code
truncates, and fallible operations as `Option`/`Except`.  Stateful code
(the daemon connection handler, the proxy) is modelled by explicit state
passing: the stream a Rust function reads from becomes a `List Nat`
argument, and the remaining stream is returned alongside the result.
-/

namespace SshClipboard

/-! ## Protocol constants (src/protocol.rs) -/

/-- `pub const MAGIC: [u8; 4] = *b"SCB1";` as a byte list. -/
def MAGIC : List Nat := [83, 67, 66, 49]

/-- `pub const VERSION: u16 = 2;` -/
def VERSION : Nat := 2

/-- `pub const CONTENT_TYPE_TEXT: &str = "text/plain; charset=utf-8";` -/
def CONTENT_TYPE_TEXT : String := "text/plain; charset=utf-8"

/-- `pub const CONTENT_TYPE_PNG: &str = "image/png";` -/
def CONTENT_TYPE_PNG : String := "image/png"

/-! ## Protocol types (src/protocol.rs) -/

/-- `ClipboardValue { content_type: String, data: Vec<u8>, created_at: i64 }`.
The byte payload `data` is a list of bytes; `created_at` is a signed 64-bit
value, modelled as `Int` (it is only carried around, never computed with). -/
structure ClipboardValue where
  content_type : String
  data : List Nat
  created_at : Int
deriving DecidableEq, Repr

/-- `RequestKind`: `Set { value } | Get | PeekMeta` (variant order as declared,
which fixes the wire discriminants 0, 1, 2). -/
inductive RequestKind where
  | Set (value : ClipboardValue)
  | Get
  | PeekMeta
deriving DecidableEq, Repr

/-- `Request { request_id: u64, kind: RequestKind }`. -/
structure Request where
  request_id : Nat
  kind : RequestKind
deriving DecidableEq, Repr

/-- `ErrorCode` (variant order as declared fixes wire discriminants 0..5). -/
inductive ErrorCode where
  | InvalidRequest
  | PayloadTooLarge
  | InvalidUtf8
  | Internal
  | DaemonNotRunning
  | VersionMismatch
deriving DecidableEq, Repr

/-- `ResponseKind`: `Ok | Value { value } | Meta { .. } | Empty | Error { .. }`
(variant order as declared fixes wire discriminants 0..4). -/
inductive ResponseKind where
  | Ok
  | Value (value : ClipboardValue)
  | Meta (content_type : String) (size : Nat) (created_at : Int)
  | Empty
  | Error (code : ErrorCode) (message : String)
deriving DecidableEq, Repr

/-- `Response { request_id: u64, kind: ResponseKind }`. -/
structure Response where
  request_id : Nat
  kind : ResponseKind
deriving DecidableEq, Repr

/-- Projection used by the invariant statements: a response kind is an error
exactly when it is the `Error` variant. -/
def ResponseKind.isError : ResponseKind → Bool
  | .Error _ _ => true
  | _ => false

/-- The error code carried by a response kind, when it is an `Error`. -/
def ResponseKind.errorCode : ResponseKind → Option ErrorCode
  | .Error code _ => some code
  | _ => none

/-! ## UTF-8 (models `std::str::from_utf8` validation and `String` bytes)

The Rust sources treat strings as UTF-8 byte sequences: `validate_set` calls
`std::str::from_utf8` on the payload, and the codec writes a `String` as its
UTF-8 bytes.  The functions below implement the standard UTF-8 byte-class
algorithm used by the Rust standard library (lead byte `C2..DF` starts a
2-byte sequence, `E0..EF` a 3-byte sequence with the usual overlong and
surrogate exclusions, `F0..F4` a 4-byte sequence, everything else invalid). -/

/-- Continuation byte test: `0x80..=0xBF`. -/
def isUtf8Cont (b : Nat) : Bool := 128 ≤ b && b ≤ 191

/-- Admissible (first, second) byte pairs of a 3-byte sequence. -/
def utf8Valid3 (b0 b1 : Nat) : Bool :=
  (b0 == 224 && 160 ≤ b1 && b1 ≤ 191) ||
  (225 ≤ b0 && b0 ≤ 236 && isUtf8Cont b1) ||
  (b0 == 237 && 128 ≤ b1 && b1 ≤ 159) ||
  (238 ≤ b0 && b0 ≤ 239 && isUtf8Cont b1)

/-- Admissible (first, second) byte pairs of a 4-byte sequence. -/
def utf8Valid4 (b0 b1 : Nat) : Bool :=
  (b0 == 240 && 144 ≤ b1 && b1 ≤ 191) ||
  (241 ≤ b0 && b0 ≤ 243 && isUtf8Cont b1) ||
  (b0 == 244 && 128 ≤ b1 && b1 ≤ 143) ||
  false

/-- UTF-8 validity of a byte sequence: models `std::str::from_utf8(..).is_ok()`. -/
def validUtf8 : List Nat → Bool
  | [] => true
  | b0 :: rest =>
    if b0 < 128 then validUtf8 rest
    else if 194 ≤ b0 && b0 ≤ 223 then
      match rest with
      | b1 :: rest2 => isUtf8Cont b1 && validUtf8 rest2
      | [] => false
    else if 224 ≤ b0 && b0 ≤ 239 then
      match rest with
      | b1 :: b2 :: rest2 => utf8Valid3 b0 b1 && isUtf8Cont b2 && validUtf8 rest2
      | _ => false
    else if 240 ≤ b0 && b0 ≤ 244 then
      match rest with
      | b1 :: b2 :: b3 :: rest2 =>
        utf8Valid4 b0 b1 && isUtf8Cont b2 && isUtf8Cont b3 && validUtf8 rest2
      | _ => false
    else false

/-- UTF-8 encoding of a single unicode scalar value (a `Char`). -/
def utf8EncodeChar (c : Char) : List Nat :=
  let n := c.toNat
  if n < 128 then [n]
  else if n < 2048 then [192 + n / 64, 128 + n % 64]
  else if n < 65536 then [224 + n / 4096, 128 + n / 64 % 64, 128 + n % 64]
  else [240 + n / 262144, 128 + n / 4096 % 64, 128 + n / 64 % 64, 128 + n % 64]

/-- The UTF-8 bytes of a string (models what `String::as_bytes` denotes for a
Rust string holding the same characters). -/
def strBytes (s : String) : List Nat :=
  s.data.foldr (fun c acc => utf8EncodeChar c ++ acc) []

/-- Decode a UTF-8 byte sequence into characters; `none` on invalid input.
Inverse direction of `strBytes`, mirroring the byte classes of `validUtf8`. -/
def utf8DecodeChars : List Nat → Option (List Char)
  | [] => some []
  | b0 :: rest =>
    if b0 < 128 then
      match utf8DecodeChars rest with
      | some cs => some (Char.ofNat b0 :: cs)
      | none => none
    else if 194 ≤ b0 && b0 ≤ 223 then
      match rest with
      | b1 :: rest2 =>
        if isUtf8Cont b1 then
          match utf8DecodeChars rest2 with
          | some cs => some (Char.ofNat ((b0 - 192) * 64 + (b1 - 128)) :: cs)
          | none => none
        else none
      | [] => none
    else if 224 ≤ b0 && b0 ≤ 239 then
      match rest with
      | b1 :: b2 :: rest2 =>
        if utf8Valid3 b0 b1 && isUtf8Cont b2 then
          match utf8DecodeChars rest2 with
          | some cs =>
            some (Char.ofNat ((b0 - 224) * 4096 + (b1 - 128) * 64 + (b2 - 128)) :: cs)
          | none => none
        else none
      | _ => none
    else if 240 ≤ b0 && b0 ≤ 244 then
      match rest with
      | b1 :: b2 :: b3 :: rest2 =>
        if utf8Valid4 b0 b1 && isUtf8Cont b2 && isUtf8Cont b3 then
          match utf8DecodeChars rest2 with
          | some cs =>
            some (Char.ofNat
              ((b0 - 240) * 262144 + (b1 - 128) * 4096 + (b2 - 128) * 64 + (b3 - 128)) :: cs)
          | none => none
        else none
      | _ => none
    else none

/-! ## Message codec (src/framing.rs `encode_message` / `decode_message`)

`encode_message` and `decode_message` call `bincode` with
`config::standard()`: little-endian, variable-length integer encoding.
The format, embedded below: an unsigned integer below 251 is a single
byte; otherwise a marker byte 251 (u16), 252 (u32) or 253 (u64) followed
by that many little-endian bytes.  Signed integers are zigzag-encoded and
then written as unsigned.  Byte sequences and strings are a length
followed by the raw bytes (strings as UTF-8, re-validated on decode).
Structs are their fields in declaration order; enums are the `u32`
variant index followed by the variant payload; an unknown variant index
is a decode error. -/

/-- Two little-endian bytes of `n % 2 ^ 16`. -/
def u16le (n : Nat) : List Nat := [n % 256, n / 256 % 256]

/-- Four little-endian bytes of `n % 2 ^ 32`. -/
def u32le (n : Nat) : List Nat :=
  [n % 256, n / 256 % 256, n / 65536 % 256, n / 16777216 % 256]

/-- Eight little-endian bytes of `n % 2 ^ 64`. -/
def u64le (n : Nat) : List Nat :=
  [n % 256, n / 256 % 256, n / 65536 % 256, n / 16777216 % 256,
   n / 4294967296 % 256, n / 1099511627776 % 256,
   n / 281474976710656 % 256, n / 72057594037927936 % 256]

/-- Variable-length encoding of an unsigned integer (bincode varint). -/
def varint (n : Nat) : List Nat :=
  if n < 251 then [n]
  else if n < 65536 then 251 :: u16le n
  else if n < 4294967296 then 252 :: u32le n
  else 253 :: u64le n

/-- Zigzag transform of a signed 64-bit value into an unsigned one. -/
def zigzag (i : Int) : Nat :=
  if 0 ≤ i then 2 * i.toNat else 2 * (-i).toNat - 1

/-- Decode a varint-encoded unsigned integer; returns the value and the
remaining bytes. -/
def decodeVarint : List Nat → Option (Nat × List Nat)
  | [] => none
  | b :: rest =>
    if b < 251 then some (b, rest)
    else if b == 251 then
      match rest with
      | b0 :: b1 :: r => some (b0 + 256 * b1, r)
      | _ => none
    else if b == 252 then
      match rest with
      | b0 :: b1 :: b2 :: b3 :: r =>
        some (b0 + 256 * b1 + 65536 * b2 + 16777216 * b3, r)
      | _ => none
    else if b == 253 then
      match rest with
      | b0 :: b1 :: b2 :: b3 :: b4 :: b5 :: b6 :: b7 :: r =>
        some (b0 + 256 * b1 + 65536 * b2 + 16777216 * b3 + 4294967296 * b4 +
          1099511627776 * b5 + 281474976710656 * b6 + 72057594037927936 * b7, r)
      | _ => none
    else none

/-- Un-zigzag: inverse of `zigzag` on 64-bit ranges. -/
def unzigzag (n : Nat) : Int :=
  if n % 2 == 0 then (n / 2 : Nat) else -(((n + 1) / 2 : Nat) : Int)

/-- Length-prefixed byte sequence (`Vec<u8>` on the wire). -/
def encodeBytes (bs : List Nat) : List Nat := varint bs.length ++ bs

/-- Length-prefixed UTF-8 string (`String` on the wire). -/
def encodeString (s : String) : List Nat := encodeBytes (strBytes s)

/-- Wire encoding of `ClipboardValue`: fields in declaration order. -/
def encodeClipboardValue (v : ClipboardValue) : List Nat :=
  encodeString v.content_type ++ encodeBytes v.data ++ varint (zigzag v.created_at)

/-- Wire encoding of `RequestKind`: variant index, then payload. -/
def encodeRequestKind : RequestKind → List Nat
  | .Set value => varint 0 ++ encodeClipboardValue value
  | .Get => varint 1
  | .PeekMeta => varint 2

/-- `encode_message::<Request>`: fields in declaration order. -/
def encodeRequest (r : Request) : List Nat :=
  varint r.request_id ++ encodeRequestKind r.kind

/-- Wire encoding of `ErrorCode`: bare variant index. -/
def encodeErrorCode : ErrorCode → List Nat
  | .InvalidRequest => varint 0
  | .PayloadTooLarge => varint 1
  | .InvalidUtf8 => varint 2
  | .Internal => varint 3
  | .DaemonNotRunning => varint 4
  | .VersionMismatch => varint 5

/-- Wire encoding of `ResponseKind`: variant index, then payload. -/
def encodeResponseKind : ResponseKind → List Nat
  | .Ok => varint 0
  | .Value value => varint 1 ++ encodeClipboardValue value
  | .Meta content_type size created_at =>
    varint 2 ++ encodeString content_type ++ varint size ++ varint (zigzag created_at)
  | .Empty => varint 3
  | .Error code message => varint 4 ++ encodeErrorCode code ++ encodeString message

/-- `encode_message::<Response>`: fields in declaration order. -/
def encodeResponse (r : Response) : List Nat :=
  varint r.request_id ++ encodeResponseKind r.kind

/-- Decode a length-prefixed byte sequence. -/
def decodeBytes (s : List Nat) : Option (List Nat × List Nat) :=
  match decodeVarint s with
  | some (len, r) => if len ≤ r.length then some (r.take len, r.drop len) else none
  | none => none

/-- Decode a length-prefixed string, re-validating UTF-8 as bincode does. -/
def decodeString (s : List Nat) : Option (String × List Nat) :=
  match decodeBytes s with
  | some (bs, r) =>
    match utf8DecodeChars bs with
    | some cs => some (String.mk cs, r)
    | none => none
  | none => none

/-- Decode a `ClipboardValue`. -/
def decodeClipboardValue (s : List Nat) : Option (ClipboardValue × List Nat) :=
  match decodeString s with
  | some (content_type, r1) =>
    match decodeBytes r1 with
    | some (data, r2) =>
      match decodeVarint r2 with
      | some (z, r3) => some (⟨content_type, data, unzigzag z⟩, r3)
      | none => none
    | none => none
  | none => none

/-- Decode a `RequestKind`; an unknown variant index is a decode error. -/
def decodeRequestKind (s : List Nat) : Option (RequestKind × List Nat) :=
  match decodeVarint s with
  | some (0, r) =>
    match decodeClipboardValue r with
    | some (value, r1) => some (.Set value, r1)
    | none => none
  | some (1, r) => some (.Get, r)
  | some (2, r) => some (.PeekMeta, r)
  | some _ => none
  | none => none

/-- `decode_message::<Request>`: trailing bytes are ignored, as
`decode_from_slice` returns the consumed length without requiring it to
cover the whole slice. -/
def decodeRequest (payload : List Nat) : Option Request :=
  match decodeVarint payload with
  | some (request_id, r) =>
    match decodeRequestKind r with
    | some (kind, _) => some ⟨request_id, kind⟩
    | none => none
  | none => none

/-- Decode an `ErrorCode`. -/
def decodeErrorCode (s : List Nat) : Option (ErrorCode × List Nat) :=
  match decodeVarint s with
  | some (0, r) => some (.InvalidRequest, r)
  | some (1, r) => some (.PayloadTooLarge, r)
  | some (2, r) => some (.InvalidUtf8, r)
  | some (3, r) => some (.Internal, r)
  | some (4, r) => some (.DaemonNotRunning, r)
  | some (5, r) => some (.VersionMismatch, r)
  | some _ => none
  | none => none

/-- Decode a `ResponseKind`; an unknown variant index is a decode error. -/
def decodeResponseKind (s : List Nat) : Option (ResponseKind × List Nat) :=
  match decodeVarint s with
  | some (0, r) => some (.Ok, r)
  | some (1, r) =>
    match decodeClipboardValue r with
    | some (value, r1) => some (.Value value, r1)
    | none => none
  | some (2, r) =>
    match decodeString r with
    | some (content_type, r1) =>
      match decodeVarint r1 with
      | some (size, r2) =>
        match decodeVarint r2 with
        | some (z, r3) => some (.Meta content_type size (unzigzag z), r3)
        | none => none
      | none => none
    | none => none
  | some (3, r) => some (.Empty, r)
  | some (4, r) =>
    match decodeErrorCode r with
    | some (code, r1) =>
      match decodeString r1 with
      | some (message, r2) => some (.Error code message, r2)
      | none => none
    | none => none
  | some _ => none
  | none => none

/-- `decode_message::<Response>`: trailing bytes are ignored. -/
def decodeResponse (payload : List Nat) : Option Response :=
  match decodeVarint payload with
  | some (request_id, r) =>
    match decodeResponseKind r with
    | some (kind, _) => some ⟨request_id, kind⟩
    | none => none
  | none => none

/-- The pinned golden fixture from `src/protocol.rs`: wire bytes of
`Request { request_id: 42, kind: Set { value: { content_type:
"text/plain; charset=utf-8", data: b"hello", created_at: 123 } } }`. -/
def REQUEST_V2_SET_FIXTURE : List Nat :=
  [42, 0, 25, 116, 101, 120, 116, 47, 112, 108, 97, 105, 110, 59, 32, 99, 104,
   97, 114, 115, 101, 116, 61, 117, 116, 102, 45, 56, 5, 104, 101, 108, 108,
   111, 246]

/-! ## Framing (src/framing.rs)

The reader functions take the byte stream as a list and return the unread
remainder alongside the result.  A `read_exact` that runs off the end of
the stream is an I/O error in Rust (not a `FramingError`); it is modelled
by the `ReadError.io` constructor. -/

/-- `FramingError` from src/framing.rs. -/
inductive FramingError where
  | InvalidMagic
  | MagicNotFound
  | UnsupportedVersion (v : Nat)
  | PayloadTooLarge (n : Nat)
deriving DecidableEq, Repr

/-- The error type of the read path (`eyre::Result`): either a
`FramingError` or some other I/O error (premature end of stream). -/
inductive ReadError where
  | framing (e : FramingError)
  | io
deriving DecidableEq, Repr

/-- `FrameReadResult { payload, discarded_bytes }`. -/
structure FrameReadResult where
  payload : List Nat
  discarded_bytes : Nat
deriving DecidableEq, Repr

/-- The Display text of a `FramingError` (its `#[error(..)]` attribute). -/
def FramingError.display : FramingError → String
  | .InvalidMagic => "invalid magic"
  | .MagicNotFound => "magic not found within scan limit"
  | .UnsupportedVersion v => "unsupported version " ++ toString v
  | .PayloadTooLarge n => "payload too large: " ++ toString n ++ " bytes"

/-- The scan loop of `read_magic`: the current 4-byte window, the unread
stream, and the number of bytes discarded so far.  One byte is read per
step; the window shifts left; the magic comparison happens before the
scan-cap comparison, exactly as in the source. -/
def read_magic_loop (window : List Nat) (s : List Nat) (discarded max_scan_bytes : Nat) :
    Except ReadError (Nat × List Nat) :=
  match s with
  | [] => .error .io
  | b :: rest =>
    let w := window.drop 1 ++ [b]
    if w = MAGIC then .ok (discarded + 1, rest)
    else if discarded + 1 > max_scan_bytes then .error (.framing .MagicNotFound)
    else read_magic_loop w rest (discarded + 1) max_scan_bytes

/-- `read_magic`: read a 4-byte window; if it is the magic, zero bytes were
discarded.  Otherwise strict mode fails with `InvalidMagic`, and resync
mode enters the sliding-window scan. -/
def read_magic (s : List Nat) (resync : Bool) (max_scan_bytes : Nat) :
    Except ReadError (Nat × List Nat) :=
  if s.length < 4 then .error .io
  else if s.take 4 = MAGIC then .ok (0, s.drop 4)
  else if !resync then .error (.framing .InvalidMagic)
  else read_magic_loop (s.take 4) (s.drop 4) 0 max_scan_bytes

/-- `read_frame_payload_inner`: magic, 2-byte little-endian version
(checked before any further read), 4-byte little-endian length (rejected
when above `max_size` before the payload is read), then the payload. -/
def read_frame_payload_inner (s : List Nat) (max_size : Nat) (resync : Bool)
    (max_scan_bytes : Nat) : Except ReadError (FrameReadResult × List Nat) :=
  match read_magic s resync max_scan_bytes with
  | .error e => .error e
  | .ok (discarded, s1) =>
    match s1 with
    | v0 :: v1 :: s2 =>
      if v0 + 256 * v1 ≠ VERSION then
        .error (.framing (.UnsupportedVersion (v0 + 256 * v1)))
      else
        match s2 with
        | l0 :: l1 :: l2 :: l3 :: s3 =>
          if l0 + 256 * l1 + 65536 * l2 + 16777216 * l3 > max_size then
            .error (.framing (.PayloadTooLarge (l0 + 256 * l1 + 65536 * l2 + 16777216 * l3)))
          else if s3.length < l0 + 256 * l1 + 65536 * l2 + 16777216 * l3 then .error .io
          else
            .ok (⟨s3.take (l0 + 256 * l1 + 65536 * l2 + 16777216 * l3), discarded⟩,
              s3.drop (l0 + 256 * l1 + 65536 * l2 + 16777216 * l3))
        | _ => .error .io
    | _ => .error .io

/-- `read_frame_payload`: strict mode, payload only. -/
def read_frame_payload (s : List Nat) (max_size : Nat) : Except ReadError (List Nat) :=
  match read_frame_payload_inner s max_size false 0 with
  | .ok (result, _) => .ok result.payload
  | .error e => .error e

/-- `read_frame_payload_resync`: resync mode, payload plus discarded count. -/
def read_frame_payload_resync (s : List Nat) (max_size max_scan_bytes : Nat) :
    Except ReadError FrameReadResult :=
  match read_frame_payload_inner s max_size true max_scan_bytes with
  | .ok (result, _) => .ok result
  | .error e => .error e

/-- `write_frame_payload`: magic, little-endian u16 version, little-endian
u32 length (`payload.len() as u32` truncates above `2 ^ 32`), payload. -/
def write_frame_payload (payload : List Nat) : List Nat :=
  MAGIC ++ u16le VERSION ++ u32le payload.length ++ payload

/-! ## Daemon (src/daemon.rs)

The stored state `Option<ClipboardValue>` is passed and returned
explicitly.  `handle_connection` is modelled as a function of the peer
uid reported by `SO_PEERCRED`, the outcome of the framed read (`Ok`
payload, read error, or elapsed `io_timeout_ms`), and the state; it
returns the response it writes back together with the state after the
connection.  The `getsockopt` failure arm of `verify_peer_credentials`
and the Display text of the wrapped I/O and bincode errors are not
modelled; no claim depends on them. -/

/-- `DaemonError` from src/daemon.rs. -/
inductive DaemonError where
  | InvalidContentType
  | InvalidUtf8
  | PayloadTooLarge
deriving DecidableEq, Repr

/-- `validate_set`: content-type whitelist, then size bound, then UTF-8
for text values; first failure wins. -/
def validate_set (value : ClipboardValue) (max_size : Nat) : Except DaemonError Unit :=
  if value.content_type ≠ CONTENT_TYPE_TEXT ∧ value.content_type ≠ CONTENT_TYPE_PNG then
    .error .InvalidContentType
  else if value.data.length > max_size then .error .PayloadTooLarge
  else if value.content_type = CONTENT_TYPE_TEXT ∧ ¬ validUtf8 value.data then
    .error .InvalidUtf8
  else .ok ()

/-- `to_error_response`: the response kind for each validation failure. -/
def to_error_response : DaemonError → ResponseKind
  | .InvalidContentType => .Error .InvalidRequest "invalid content type"
  | .InvalidUtf8 => .Error .InvalidUtf8 "invalid utf-8"
  | .PayloadTooLarge => .Error .PayloadTooLarge "payload too large"

/-- `handle_request`: dispatch on the request kind; only a `Set` that
passes validation writes the state. -/
def handle_request (request : Request) (state : Option ClipboardValue) (max_size : Nat) :
    Response × Option ClipboardValue :=
  match request.kind with
  | .Get =>
    match state with
    | some value => (⟨request.request_id, .Value value⟩, state)
    | none => (⟨request.request_id, .Empty⟩, state)
  | .PeekMeta =>
    match state with
    | some value =>
      (⟨request.request_id, .Meta value.content_type value.data.length value.created_at⟩, state)
    | none => (⟨request.request_id, .Empty⟩, state)
  | .Set value =>
    match validate_set value max_size with
    | .ok _ => (⟨request.request_id, .Ok⟩, some value)
    | .error err => (⟨request.request_id, to_error_response err⟩, state)

/-- `framing_error_response`: the downcast to `FramingError` succeeds for
the `framing` arm and fails for other I/O errors, which become `Internal`. -/
def framing_error_response (err : ReadError) (request_id : Nat) : Response :=
  match err with
  | .framing f =>
    match f with
    | .InvalidMagic | .MagicNotFound =>
      ⟨request_id, .Error .InvalidRequest ("invalid framing: " ++ f.display)⟩
    | .UnsupportedVersion _ =>
      ⟨request_id, .Error .VersionMismatch ("version mismatch: " ++ f.display)⟩
    | .PayloadTooLarge _ =>
      ⟨request_id, .Error .PayloadTooLarge f.display⟩
  | .io => ⟨request_id, .Error .Internal "framing read error: "⟩

/-- `peer_uid_matches` from src/daemon.rs. -/
def peer_uid_matches (actual expected : Nat) : Bool := actual == expected

/-- What the framed read of the request delivers on a given connection:
a payload, a read error, or expiry of `io_timeout_ms`. -/
inductive ReadOutcome where
  | ok (payload : List Nat)
  | err (e : ReadError)
  | timeout
deriving DecidableEq, Repr

/-- `handle_connection`: peer credential check, framed read under the
timeout, decode, dispatch.  Returns the response written back and the
state after the connection. -/
def handle_connection (peer_uid expected_uid : Nat) (read : ReadOutcome)
    (state : Option ClipboardValue) (max_size : Nat) : Response × Option ClipboardValue :=
  if ¬ peer_uid_matches peer_uid expected_uid then
    (⟨0, .Error .InvalidRequest
        ("peer credential check failed: peer uid mismatch (expected " ++
          toString expected_uid ++ ", got " ++ toString peer_uid ++ ")")⟩, state)
  else
    match read with
    | .err e => (framing_error_response e 0, state)
    | .timeout => (⟨0, .Error .Internal "read timeout"⟩, state)
    | .ok payload =>
      match decodeRequest payload with
      | some request => handle_request request state max_size
      | none => (⟨0, .Error .InvalidRequest "decode error: "⟩, state)

/-! ## Proxy (src/proxy.rs)

`run_proxy` is modelled as a function of the outcome of the stdin frame
read, the outcome of `connect_daemon`, whether the request write to the
daemon socket succeeds, and the outcome of the response frame read.  It
returns the list of frames written to stdout together with either the
exit code (`Ok(code)` in Rust) or `Except.error ()` for the paths where
`run_proxy` propagates an error to the caller with `?`. -/

/-- Exit codes from src/proxy.rs. -/
def EXIT_OK : Int := 0

/-- Exit code 2. -/
def EXIT_INVALID_REQUEST : Int := 2

/-- Exit code 3. -/
def EXIT_PAYLOAD_TOO_LARGE : Int := 3

/-- Exit code 4. -/
def EXIT_DAEMON_NOT_RUNNING : Int := 4

/-- Exit code 5. -/
def EXIT_INTERNAL : Int := 5

/-- `map_error_code`: protocol error code to process exit code. -/
def map_error_code : ErrorCode → Int
  | .InvalidRequest => EXIT_INVALID_REQUEST
  | .PayloadTooLarge => EXIT_PAYLOAD_TOO_LARGE
  | .InvalidUtf8 => EXIT_INVALID_REQUEST
  | .DaemonNotRunning => EXIT_DAEMON_NOT_RUNNING
  | .VersionMismatch => EXIT_INVALID_REQUEST
  | .Internal => EXIT_INTERNAL

/-- `request_id_from_payload`: parsed request id, or 0. -/
def request_id_from_payload (payload : List Nat) : Nat :=
  match decodeRequest payload with
  | some request => request.request_id
  | none => 0

/-- `ConnectError` from src/proxy.rs (the message strings carried by the
`Failed` and `AutostartFailed` arms are built from OS error text). -/
inductive ConnectError where
  | Timeout
  | Failed (message : String)
  | AutostartFailed (message : String)
deriving DecidableEq, Repr

/-- `run_proxy`: read one frame from stdin (errors propagate with `?` and
write nothing), connect to the daemon (on failure, synthesize a framed
`DaemonNotRunning` error response on stdout and exit 4), forward the
request, read the response, relay it verbatim, and map the exit code. -/
def run_proxy (stdinRead : ReadOutcome) (connectResult : Except ConnectError Unit)
    (streamWriteOk : Bool) (daemonRead : ReadOutcome) :
    List (List Nat) × Except Unit Int :=
  match stdinRead with
  | .err _ => ([], .error ())
  | .timeout => ([], .error ())
  | .ok request_payload =>
    match connectResult with
    | .error ce =>
      let message :=
        match ce with
        | .Timeout => "daemon connect timed out"
        | .Failed m => m
        | .AutostartFailed m => m
      let response : Response :=
        ⟨request_id_from_payload request_payload,
          .Error .DaemonNotRunning message⟩
      ([write_frame_payload (encodeResponse response)], .ok EXIT_DAEMON_NOT_RUNNING)
    | .ok _ =>
      if ¬ streamWriteOk then ([], .error ())
      else
        match daemonRead with
        | .err _ => ([], .error ())
        | .timeout => ([], .error ())
        | .ok response_payload =>
          let exit_code :=
            match decodeResponse response_payload with
            | some response =>
              match response.kind with
              | .Error code _ => map_error_code code
              | _ => EXIT_OK
            | none => EXIT_INTERNAL
          ([write_frame_payload response_payload], .ok exit_code)

/-! ## Invariants and helper lemmas -/

/-- The daemon state invariant of the specification: a stored value is
whitelisted, within the size bound, and valid UTF-8 when it is text. -/
def StateInv (state : Option ClipboardValue) (max_size : Nat) : Prop :=
  match state with
  | none => True
  | some v =>
    (v.content_type = CONTENT_TYPE_TEXT ∨ v.content_type = CONTENT_TYPE_PNG) ∧
    v.data.length ≤ max_size ∧
    (v.content_type = CONTENT_TYPE_TEXT → validUtf8 v.data = true)

/-- A successful validation certifies the invariant for the value. -/
lemma validate_set_ok (v : ClipboardValue) (max_size : Nat)
    (h : validate_set v max_size = .ok ()) :
    (v.content_type = CONTENT_TYPE_TEXT ∨ v.content_type = CONTENT_TYPE_PNG) ∧
    v.data.length ≤ max_size ∧
    (v.content_type = CONTENT_TYPE_TEXT → validUtf8 v.data = true) := by
  unfold validate_set at h
  split_ifs at h with h1 h2 h3
  push_neg at h1 h2 h3
  refine ⟨?_, ?_, ?_⟩
  · by_cases ht : v.content_type = CONTENT_TYPE_TEXT
    · exact Or.inl ht
    · exact Or.inr (h1 ht)
  · exact h2
  · intro ht
    by_contra hu
    exact hu (h3 ht)

/-- `handle_request` echoes the request id of the request it dispatches. -/
lemma handle_request_request_id (request : Request) (state : Option ClipboardValue)
    (max_size : Nat) :
    (handle_request request state max_size).1.request_id = request.request_id := by
  cases hk : request.kind with
  | Get => cases state <;> simp [handle_request, hk]
  | PeekMeta => cases state <;> simp [handle_request, hk]
  | Set value =>
    cases hv : validate_set value max_size with
    | ok u => simp [handle_request, hk, hv]
    | error e => simp [handle_request, hk, hv]

/-- `handle_request` either keeps the state or stores the validated value. -/
lemma handle_request_state (request : Request) (state : Option ClipboardValue)
    (max_size : Nat) :
    (handle_request request state max_size).2 = state ∨
    ∃ value, request.kind = .Set value ∧ validate_set value max_size = .ok () ∧
      (handle_request request state max_size).2 = some value := by
  cases hk : request.kind with
  | Get => exact Or.inl (by cases state <;> simp [handle_request, hk])
  | PeekMeta => exact Or.inl (by cases state <;> simp [handle_request, hk])
  | Set value =>
    cases hv : validate_set value max_size with
    | ok u =>
      cases u
      exact Or.inr ⟨value, rfl, hv, by simp [handle_request, hk, hv]⟩
    | error e => exact Or.inl (by simp [handle_request, hk, hv])

/-- When `handle_request` replies with an error, the state is untouched. -/
lemma handle_request_error_state (request : Request) (state : Option ClipboardValue)
    (max_size : Nat)
    (h : ((handle_request request state max_size).1.kind.isError = true)) :
    (handle_request request state max_size).2 = state := by
  cases hk : request.kind with
  | Get => cases state <;> simp [handle_request, hk]
  | PeekMeta => cases state <;> simp [handle_request, hk]
  | Set value =>
    cases hv : validate_set value max_size with
    | ok u =>
      exfalso
      cases u
      simp [handle_request, hk, hv, ResponseKind.isError] at h
    | error e => simp [handle_request, hk, hv]

/-- `framing_error_response` echoes the given request id. -/
lemma framing_error_response_request_id (err : ReadError) (request_id : Nat) :
    (framing_error_response err request_id).request_id = request_id := by
  cases err with
  | framing f => cases f <;> rfl
  | io => rfl

/-! ## Claim theorems: daemon -/

/-- Claim C1: for a Set request, validation is applied in order with the
first failure winning: a non-whitelisted content type gives
`Error InvalidRequest "invalid content type"`, then an oversize payload
gives `Error PayloadTooLarge`, then invalid UTF-8 in a text value gives
`Error InvalidUtf8`, and otherwise the value is stored and the reply is
`Ok`.  The stored state is overwritten exactly in the success case. -/
theorem set_validation_first_failure_wins (id : Nat) (v : ClipboardValue)
    (st : Option ClipboardValue) (max_size : Nat) :
    handle_request ⟨id, .Set v⟩ st max_size =
      if v.content_type ≠ CONTENT_TYPE_TEXT ∧ v.content_type ≠ CONTENT_TYPE_PNG then
        (⟨id, .Error .InvalidRequest "invalid content type"⟩, st)
      else if v.data.length > max_size then
        (⟨id, .Error .PayloadTooLarge "payload too large"⟩, st)
      else if v.content_type = CONTENT_TYPE_TEXT ∧ ¬ validUtf8 v.data then
        (⟨id, .Error .InvalidUtf8 "invalid utf-8"⟩, st)
      else (⟨id, .Ok⟩, some v) := by
  show (match validate_set v max_size with
    | .ok _ => ((⟨id, .Ok⟩ : Response), some v)
    | .error err => (⟨id, to_error_response err⟩, st)) = _
  unfold validate_set
  split_ifs <;> rfl

/-- Claim C2: whenever the daemon connection handler produces an error
response — peer-credential rejection, framing error, read timeout, decode
failure, or a Set that fails validation — the stored value after the
connection equals the stored value before it. -/
theorem error_responses_preserve_state (peer_uid expected_uid : Nat)
    (read : ReadOutcome) (st : Option ClipboardValue) (max_size : Nat)
    (h : (handle_connection peer_uid expected_uid read st max_size).1.kind.isError = true) :
    (handle_connection peer_uid expected_uid read st max_size).2 = st := by
  by_cases hp : peer_uid_matches peer_uid expected_uid
  · cases read with
    | err e => simp [handle_connection, hp]
    | timeout => simp [handle_connection, hp]
    | ok payload =>
      cases hd : decodeRequest payload with
      | some request =>
        have h2 : (handle_request request st max_size).1.kind.isError = true := by
          simpa [handle_connection, hp, hd] using h
        simpa [handle_connection, hp, hd] using
          handle_request_error_state request st max_size h2
      | none => simp [handle_connection, hp, hd]
  · simp [handle_connection, hp]

/-- Witness for C2: a peer-uid mismatch yields an error response and the
(empty) stored state is unchanged. -/
theorem error_responses_preserve_state_witness :
    (handle_connection 1 2 (.ok []) none 10).2 = none :=
  error_responses_preserve_state 1 2 (.ok []) none 10 (by decide)

/-- Claim C3: the stored-state invariant (whitelisted content type, size
within `max_size`, text valid UTF-8) holds for the initial empty state and
is preserved by every connection the daemon handles, whatever the request
kind and whether a Set succeeds or fails. -/
theorem stored_value_invariant (peer_uid expected_uid : Nat) (read : ReadOutcome)
    (st : Option ClipboardValue) (max_size : Nat) :
    StateInv none max_size ∧
    (StateInv st max_size →
      StateInv (handle_connection peer_uid expected_uid read st max_size).2 max_size) := by
  constructor
  · trivial
  · intro hst
    by_cases hp : peer_uid_matches peer_uid expected_uid
    · cases read with
      | err e => simpa [handle_connection, hp] using hst
      | timeout => simpa [handle_connection, hp] using hst
      | ok payload =>
        cases hd : decodeRequest payload with
        | some request =>
          have hs := handle_request_state request st max_size
          rcases hs with hs | ⟨value, _, hv, hs⟩
          · simpa [handle_connection, hp, hd, hs] using hst
          · have hinv := validate_set_ok value max_size hv
            have hred :
                (handle_connection peer_uid expected_uid (.ok payload) st max_size).2 =
                  (handle_request request st max_size).2 := by
              simp [handle_connection, hp, hd]
            rw [hred, hs]
            exact hinv
        | none => simpa [handle_connection, hp, hd] using hst
    · simpa [handle_connection, hp] using hst

/-- Witness for C3: handling the pinned Set fixture from the empty state
yields a state satisfying the invariant. -/
theorem stored_value_invariant_witness :
    StateInv (handle_connection 1 1 (.ok REQUEST_V2_SET_FIXTURE) none 100).2 100 :=
  (stored_value_invariant 1 1 (.ok REQUEST_V2_SET_FIXTURE) none 100).2 trivial

/-- Claim C4: the response request id equals the id of the decoded request
for every request kind, and is 0 on every path where no request could be
parsed (peer-credential rejection, framing error, read timeout, decode
failure). -/
theorem response_carries_request_id (peer_uid expected_uid : Nat) (read : ReadOutcome)
    (st : Option ClipboardValue) (max_size : Nat) :
    (handle_connection peer_uid expected_uid read st max_size).1.request_id =
      if peer_uid_matches peer_uid expected_uid then
        match read with
        | .ok payload =>
          match decodeRequest payload with
          | some request => request.request_id
          | none => 0
        | .err _ => 0
        | .timeout => 0
      else 0 := by
  by_cases hp : peer_uid_matches peer_uid expected_uid
  · cases read with
    | err e => simp [handle_connection, hp, framing_error_response_request_id]
    | timeout => simp [handle_connection, hp]
    | ok payload =>
      cases hd : decodeRequest payload with
      | some request =>
        simp [handle_connection, hp, hd, handle_request_request_id]
      | none => simp [handle_connection, hp, hd]
  · simp [handle_connection, hp]

/-- Claim C7: every frame-read failure is translated exactly as specified:
`InvalidMagic` and `MagicNotFound` to `InvalidRequest`,
`UnsupportedVersion` to `VersionMismatch`, `PayloadTooLarge` to
`PayloadTooLarge`, and any other read error — including a read timeout —
to `Internal`; the daemon replies with that translation (request id 0). -/
theorem framing_errors_translate (f : FramingError) (request_id uid : Nat)
    (st : Option ClipboardValue) (max_size : Nat) :
    (framing_error_response (.framing f) request_id).request_id = request_id ∧
    (framing_error_response (.framing f) request_id).kind.errorCode =
      some (match f with
        | .InvalidMagic => ErrorCode.InvalidRequest
        | .MagicNotFound => ErrorCode.InvalidRequest
        | .UnsupportedVersion _ => ErrorCode.VersionMismatch
        | .PayloadTooLarge _ => ErrorCode.PayloadTooLarge) ∧
    (handle_connection uid uid (.err (.framing f)) st max_size).1 =
      framing_error_response (.framing f) 0 ∧
    (handle_connection uid uid (.err .io) st max_size).1.kind.errorCode =
      some ErrorCode.Internal ∧
    (handle_connection uid uid .timeout st max_size).1.kind.errorCode =
      some ErrorCode.Internal := by
  have hp : peer_uid_matches uid uid := by simp [peer_uid_matches]
  refine ⟨framing_error_response_request_id _ _, ?_, ?_, ?_, ?_⟩
  · cases f <;> rfl
  · simp [handle_connection, hp]
  · simp [handle_connection, hp, framing_error_response, ResponseKind.errorCode]
  · simp [handle_connection, hp, ResponseKind.errorCode]

/-! ## Framing lemmas -/

/-- A list of length at least 4 starts with four explicit elements. -/
lemma exists_cons_four (v : List Nat) (h : 4 ≤ v.length) :
    ∃ a b c d w, v = a :: b :: c :: d :: w := by
  rcases v with _ | ⟨a, _ | ⟨b, _ | ⟨c, _ | ⟨d, w⟩⟩⟩⟩
  · simp at h
  · simp at h
  · simp at h
  · simp at h
  · exact ⟨a, b, c, d, w, rfl⟩

/-- No 4-byte window starting inside `g` (when `g` is followed by the
magic) equals the magic: the condition the C6 claim words as a garbage
run that does not itself complete the magic sequence. -/
def noEarlyMagic (g : List Nat) : Prop :=
  ∀ j, j < g.length → ((g.drop j) ++ MAGIC).take 4 ≠ MAGIC

/-- `noEarlyMagic` passes to the tail. -/
lemma noEarlyMagic_tail (c : Nat) (h : List Nat) (hnm : noEarlyMagic (c :: h)) :
    noEarlyMagic h := by
  intro j hj
  have := hnm (j + 1) (by simpa using Nat.succ_lt_succ hj)
  simpa using this

/-- One unfolding of the scan loop on a nonempty stream. -/
lemma read_magic_loop_cons (window : List Nat) (b : Nat) (rest : List Nat) (d cap : Nat) :
    read_magic_loop window (b :: rest) d cap =
      if window.drop 1 ++ [b] = MAGIC then .ok (d + 1, rest)
      else if d + 1 > cap then .error (.framing .MagicNotFound)
      else read_magic_loop (window.drop 1 ++ [b]) rest (d + 1) cap := rfl

/-- The scan loop over a garbage run `h` followed by the magic: it finds
the magic after discarding `h.length` further bytes, unless a non-magic
window pushes the discard count past the cap first.  The magic test is
applied before the cap test, so a run whose final byte count is exactly
`cap + 1` still succeeds when the magic completes on that byte. -/
lemma read_magic_loop_scan (rest : List Nat) (cap : Nat) :
    ∀ (h : List Nat) (d : Nat), h ≠ [] → noEarlyMagic h →
      read_magic_loop ((h ++ MAGIC ++ rest).take 4) ((h ++ MAGIC ++ rest).drop 4) d cap =
        if h.length = 1 ∨ d + h.length ≤ cap + 1 then .ok (d + h.length, rest)
        else .error (.framing .MagicNotFound) := by
  intro h
  induction h with
  | nil => intro d hne _; exact absurd rfl hne
  | cons c h' ih =>
    intro d _ hnm
    have hv4 : 4 ≤ (h' ++ MAGIC ++ rest).length := by simp [MAGIC]; omega
    obtain ⟨a, b, c2, d2, w, hveq⟩ := exists_cons_four _ hv4
    have hstream : (c :: h') ++ MAGIC ++ rest = c :: a :: b :: c2 :: d2 :: w := by
      simp only [List.cons_append]
      rw [hveq]
    rw [hstream]
    have htake : (c :: a :: b :: c2 :: d2 :: w).take 4 = [c, a, b, c2] := rfl
    have hdrop : (c :: a :: b :: c2 :: d2 :: w).drop 4 = d2 :: w := rfl
    rw [htake, hdrop, read_magic_loop_cons]
    have hshift : ([c, a, b, c2] : List Nat).drop 1 ++ [d2] = [a, b, c2, d2] := rfl
    rw [hshift]
    have htake4 : (h' ++ MAGIC ++ rest).take 4 = [a, b, c2, d2] := by rw [hveq]; rfl
    have hdrop4 : (h' ++ MAGIC ++ rest).drop 4 = w := by rw [hveq]; rfl
    rcases h' with _ | ⟨e, h''⟩
    · -- the magic completes on this byte
      have hmag : ([a, b, c2, d2] : List Nat) = MAGIC := by
        have : (MAGIC ++ rest).take 4 = [a, b, c2, d2] := by
          simpa using htake4
        simpa [MAGIC] using this.symm
      rw [if_pos hmag]
      have hw : w = rest := by
        have : (MAGIC ++ rest).drop 4 = w := by simpa using hdrop4
        simpa [MAGIC] using this.symm
      rw [hw, if_pos (Or.inl (by simp))]
      simp
    · -- a non-magic window: cap test, then recurse
      have hne4 : ([a, b, c2, d2] : List Nat) ≠ MAGIC := by
        rw [← htake4]
        have h1 := hnm 1 (by simp)
        have hsplit : ((e :: h'') ++ MAGIC ++ rest).take 4 = ((e :: h'') ++ MAGIC).take 4 :=
          List.take_append_of_le_length (by simp [MAGIC])
        rw [hsplit]
        simpa using h1
      rw [if_neg hne4]
      by_cases hcap : d + 1 > cap
      · rw [if_pos hcap, if_neg (by simp only [List.length_cons]; omega)]
      · rw [if_neg hcap, ← htake4, ← hdrop4,
          ih (d + 1) (List.cons_ne_nil e h'') (noEarlyMagic_tail c (e :: h'') hnm)]
        refine if_congr (by simp only [List.length_cons]; omega) ?_ rfl
        have harith : d + 1 + (e :: h'').length = d + (c :: e :: h'').length := by
          simp only [List.length_cons]
          omega
        rw [harith]

/-- `read_magic` on a stream starting with the magic. -/
lemma read_magic_at_magic (rest : List Nat) (resync : Bool) (cap : Nat) :
    read_magic (MAGIC ++ rest) resync cap = .ok (0, rest) := by
  unfold read_magic
  rw [if_neg (by simp [MAGIC]), if_pos (show (MAGIC ++ rest).take 4 = MAGIC from rfl)]
  rfl

/-- `read_magic` in resync mode over a garbage run followed by the magic:
success exactly when the run length is at most `cap + 1`, and the whole
run is discarded. -/
lemma read_magic_resync_garbage (g rest : List Nat) (cap : Nat) (hg : g ≠ [])
    (hnm : noEarlyMagic g) :
    read_magic (g ++ MAGIC ++ rest) true cap =
      if g.length ≤ cap + 1 then .ok (g.length, rest)
      else .error (.framing .MagicNotFound) := by
  have hwne : (g ++ MAGIC ++ rest).take 4 ≠ MAGIC := by
    have hsplit : (g ++ MAGIC ++ rest).take 4 = (g ++ MAGIC).take 4 :=
      List.take_append_of_le_length (by simp [MAGIC])
    rw [hsplit]
    simpa using hnm 0 (by simpa using List.length_pos.mpr hg)
  unfold read_magic
  rw [if_neg (by simp [MAGIC]; omega), if_neg hwne, if_neg (by decide),
    read_magic_loop_scan rest cap g 0 hg hnm]
  refine if_congr ?_ (by simp) rfl
  constructor
  · rintro (h1 | h1) <;> omega
  · intro h1
    exact Or.inr (by omega)

/-- `read_magic` in strict mode over a nonempty garbage run fails with
`InvalidMagic`. -/
lemma read_magic_strict_garbage (g rest : List Nat) (cap : Nat) (hg : g ≠ [])
    (hnm : noEarlyMagic g) :
    read_magic (g ++ MAGIC ++ rest) false cap = .error (.framing .InvalidMagic) := by
  have hwne : (g ++ MAGIC ++ rest).take 4 ≠ MAGIC := by
    have hsplit : (g ++ MAGIC ++ rest).take 4 = (g ++ MAGIC).take 4 :=
      List.take_append_of_le_length (by simp [MAGIC])
    rw [hsplit]
    simpa using hnm 0 (by simpa using List.length_pos.mpr hg)
  unfold read_magic
  rw [if_neg (by simp [MAGIC]; omega), if_neg hwne, if_pos (by decide)]

/-- Parsing the frame body after the magic: version `2`, the four length
bytes of `n`, and at least `n` further bytes yield the first `n` bytes as
the payload. -/
lemma read_frame_payload_inner_parse (s : List Nat) (resync : Bool)
    (cap max_size d n : Nat) (s3 : List Nat)
    (hm : read_magic s resync cap =
      .ok (d, 2 :: 0 :: (n % 256) :: (n / 256 % 256) :: (n / 65536 % 256) ::
        (n / 16777216 % 256) :: s3))
    (hmax : n ≤ max_size) (h32 : n < 4294967296) (hn : n ≤ s3.length) :
    read_frame_payload_inner s max_size resync cap = .ok (⟨s3.take n, d⟩, s3.drop n) := by
  have hrec : n % 256 + 256 * (n / 256 % 256) + 65536 * (n / 65536 % 256) +
      16777216 * (n / 16777216 % 256) = n := by omega
  have h1 : ¬(n > max_size) := by omega
  have h2 : ¬(s3.length < n) := by omega
  simp [read_frame_payload_inner, hm, hrec, VERSION, h1, h2]

/-- `read_frame_payload_inner` propagates `read_magic` failures. -/
lemma read_frame_payload_inner_magic_error (s : List Nat) (resync : Bool)
    (cap max_size : Nat) (e : ReadError)
    (hm : read_magic s resync cap = .error e) :
    read_frame_payload_inner s max_size resync cap = .error e := by
  unfold read_frame_payload_inner
  rw [hm]

/-- Unfold `read_frame_payload` on a successful inner read. -/
lemma read_frame_payload_ok (s : List Nat) (max_size : Nat) (r : FrameReadResult)
    (rest : List Nat) (h : read_frame_payload_inner s max_size false 0 = .ok (r, rest)) :
    read_frame_payload s max_size = .ok r.payload := by
  unfold read_frame_payload
  rw [h]

/-- Unfold `read_frame_payload` on a failing inner read. -/
lemma read_frame_payload_error (s : List Nat) (max_size : Nat) (e : ReadError)
    (h : read_frame_payload_inner s max_size false 0 = .error e) :
    read_frame_payload s max_size = .error e := by
  unfold read_frame_payload
  rw [h]

/-- Unfold `read_frame_payload_resync` on a successful inner read. -/
lemma read_frame_payload_resync_ok (s : List Nat) (max_size cap : Nat)
    (r : FrameReadResult) (rest : List Nat)
    (h : read_frame_payload_inner s max_size true cap = .ok (r, rest)) :
    read_frame_payload_resync s max_size cap = .ok r := by
  unfold read_frame_payload_resync
  rw [h]

/-- Unfold `read_frame_payload_resync` on a failing inner read. -/
lemma read_frame_payload_resync_error (s : List Nat) (max_size cap : Nat) (e : ReadError)
    (h : read_frame_payload_inner s max_size true cap = .error e) :
    read_frame_payload_resync s max_size cap = .error e := by
  unfold read_frame_payload_resync
  rw [h]

/-- The bytes after the magic in a written frame, in explicit form. -/
lemma write_frame_payload_split (p : List Nat) :
    write_frame_payload p =
      MAGIC ++ (2 :: 0 :: (p.length % 256) :: (p.length / 256 % 256) ::
        (p.length / 65536 % 256) :: (p.length / 16777216 % 256) :: p) := rfl

/-! ## Claim theorems: framing -/

/-- Claim C5 counterexample: the length field is `payload.len() as u32`,
so a payload of length `2 ^ 32` is written with a length field of 0 and
the read returns the empty payload, not the original: the claim fails as
stated for payloads whose length does not fit in 32 bits. -/
theorem frame_round_trip_truncation_counterexample :
    read_frame_payload (write_frame_payload (List.replicate 4294967296 0)) 4294967296 ≠
      Except.ok (List.replicate 4294967296 0) := by
  have habs : ∀ p : List Nat, p.length = 4294967296 →
      read_frame_payload (write_frame_payload p) 4294967296 = .ok [] := by
    intro p hlen
    have hm : read_magic (write_frame_payload p) false 0 =
        .ok (0, 2 :: 0 :: (p.length % 256) :: (p.length / 256 % 256) ::
          (p.length / 65536 % 256) :: (p.length / 16777216 % 256) :: p) := by
      rw [write_frame_payload_split]
      exact read_magic_at_magic _ false 0
    have hinner : read_frame_payload_inner (write_frame_payload p) 4294967296 false 0 =
        .ok (⟨[], 0⟩, p) := by
      unfold read_frame_payload_inner
      rw [hm, hlen]
      simp [VERSION]
    exact read_frame_payload_ok _ _ _ _ hinner
  rw [habs (List.replicate 4294967296 0) (List.length_replicate _ _)]
  intro hcontra
  have heq := congrArg List.length (Except.ok.inj hcontra)
  rw [List.length_nil, List.length_replicate] at heq
  exact absurd heq (by omega)

/-- Claim C5 (amended): for every payload `p` with `p.len() ≤ max` whose
length fits in the 32-bit length field, writing `p` with
`write_frame_payload` and reading back with strict `read_frame_payload`
under the same `max` returns exactly `p`. -/
theorem frame_write_read_round_trip (p : List Nat) (max_size : Nat)
    (h1 : p.length ≤ max_size) (h2 : p.length < 4294967296) :
    read_frame_payload (write_frame_payload p) max_size = .ok p := by
  have hm : read_magic (write_frame_payload p) false 0 =
      .ok (0, 2 :: 0 :: (p.length % 256) :: (p.length / 256 % 256) ::
        (p.length / 65536 % 256) :: (p.length / 16777216 % 256) :: p) := by
    rw [write_frame_payload_split]
    exact read_magic_at_magic _ false 0
  have hinner := read_frame_payload_inner_parse (write_frame_payload p) false 0 max_size 0
    p.length p hm h1 h2 (le_refl _)
  rw [List.take_length, List.drop_length] at hinner
  exact read_frame_payload_ok _ _ _ _ hinner

/-- Witness for the amended C5: a concrete 3-byte payload round-trips. -/
theorem frame_write_read_round_trip_witness :
    read_frame_payload (write_frame_payload [1, 2, 3]) 3 = .ok [1, 2, 3] :=
  frame_write_read_round_trip [1, 2, 3] 3 (by decide) (by decide)

/-- Claim C6: a nonempty garbage run `g` that does not complete the magic,
with `|g| ≤ scan_cap`, followed by a valid frame: resync returns the frame
payload having discarded exactly `|g|` bytes (hence at least `|g|`), while
strict reading of the same stream fails with `InvalidMagic`. -/
theorem resync_skips_garbage_run (g p : List Nat) (max_size cap : Nat)
    (hg : g ≠ []) (hnm : noEarlyMagic g) (hcap : g.length ≤ cap)
    (hmax : p.length ≤ max_size) (h32 : p.length < 4294967296) :
    read_frame_payload_resync (g ++ write_frame_payload p) max_size cap =
      .ok ⟨p, g.length⟩ ∧
    read_frame_payload (g ++ write_frame_payload p) max_size =
      .error (.framing .InvalidMagic) := by
  have hgsplit : g ++ write_frame_payload p =
      g ++ MAGIC ++ (2 :: 0 :: (p.length % 256) :: (p.length / 256 % 256) ::
        (p.length / 65536 % 256) :: (p.length / 16777216 % 256) :: p) := by
    rw [write_frame_payload_split, List.append_assoc]
  constructor
  · have hm : read_magic (g ++ write_frame_payload p) true cap =
        .ok (g.length, 2 :: 0 :: (p.length % 256) :: (p.length / 256 % 256) ::
          (p.length / 65536 % 256) :: (p.length / 16777216 % 256) :: p) := by
      rw [hgsplit, read_magic_resync_garbage _ _ cap hg hnm, if_pos (by omega)]
    have hinner := read_frame_payload_inner_parse (g ++ write_frame_payload p) true cap
      max_size g.length p.length p hm hmax h32 (le_refl _)
    rw [List.take_length, List.drop_length] at hinner
    exact read_frame_payload_resync_ok _ _ _ _ _ hinner
  · have hm : read_magic (g ++ write_frame_payload p) false 0 =
        .error (.framing .InvalidMagic) := by
      rw [hgsplit]
      exact read_magic_strict_garbage _ _ 0 hg hnm
    exact read_frame_payload_error _ _ _
      (read_frame_payload_inner_magic_error _ _ _ _ _ hm)

/-- Witness for C6: the 10-byte banner b"MOTD-line\n" before a valid
framed Get request is skipped with exactly 10 discarded bytes, while
strict reading fails with `InvalidMagic`. -/
theorem resync_skips_garbage_run_witness :
    read_frame_payload_resync
        ([77, 79, 84, 68, 45, 108, 105, 110, 101, 10] ++
          write_frame_payload (encodeRequest ⟨1, .Get⟩)) 1024 16 =
      .ok ⟨encodeRequest ⟨1, .Get⟩, 10⟩ ∧
    read_frame_payload
        ([77, 79, 84, 68, 45, 108, 105, 110, 101, 10] ++
          write_frame_payload (encodeRequest ⟨1, .Get⟩)) 1024 =
      .error (.framing .InvalidMagic) :=
  resync_skips_garbage_run [77, 79, 84, 68, 45, 108, 105, 110, 101, 10]
    (encodeRequest ⟨1, .Get⟩) 1024 16 (by decide)
    (by unfold noEarlyMagic; decide) (by decide) (by decide) (by decide)

/-- Claim C10: the magic comparison precedes the scan-cap comparison, so
for a garbage run of length `G` before a valid frame, resync succeeds
exactly when `G ≤ max_scan_bytes + 1` (discarding all `G` bytes, which
may equal `max_scan_bytes + 1`), and fails with `MagicNotFound` exactly
when `G > max_scan_bytes + 1`. -/
theorem resync_scan_cap_off_by_one (g p : List Nat) (max_size cap : Nat)
    (hg : g ≠ []) (hnm : noEarlyMagic g)
    (hmax : p.length ≤ max_size) (h32 : p.length < 4294967296) :
    read_frame_payload_resync (g ++ write_frame_payload p) max_size cap =
      if g.length ≤ cap + 1 then .ok ⟨p, g.length⟩
      else .error (.framing .MagicNotFound) := by
  have hgsplit : g ++ write_frame_payload p =
      g ++ MAGIC ++ (2 :: 0 :: (p.length % 256) :: (p.length / 256 % 256) ::
        (p.length / 65536 % 256) :: (p.length / 16777216 % 256) :: p) := by
    rw [write_frame_payload_split, List.append_assoc]
  by_cases hc : g.length ≤ cap + 1
  · rw [if_pos hc]
    have hm : read_magic (g ++ write_frame_payload p) true cap =
        .ok (g.length, 2 :: 0 :: (p.length % 256) :: (p.length / 256 % 256) ::
          (p.length / 65536 % 256) :: (p.length / 16777216 % 256) :: p) := by
      rw [hgsplit, read_magic_resync_garbage _ _ cap hg hnm, if_pos hc]
    have hinner := read_frame_payload_inner_parse (g ++ write_frame_payload p) true cap
      max_size g.length p.length p hm hmax h32 (le_refl _)
    rw [List.take_length, List.drop_length] at hinner
    exact read_frame_payload_resync_ok _ _ _ _ _ hinner
  · rw [if_neg hc]
    have hm : read_magic (g ++ write_frame_payload p) true cap =
        .error (.framing .MagicNotFound) := by
      rw [hgsplit, read_magic_resync_garbage _ _ cap hg hnm, if_neg hc]
    exact read_frame_payload_resync_error _ _ _ _
      (read_frame_payload_inner_magic_error _ _ _ _ _ hm)

/-- Witness for C10: with scan cap 2, a 3-byte garbage run (= cap + 1)
still succeeds with 3 discarded bytes, and a 4-byte run fails with
`MagicNotFound`. -/
theorem resync_scan_cap_off_by_one_witness :
    read_frame_payload_resync ([77, 77, 77] ++ write_frame_payload [5]) 16 2 =
      .ok ⟨[5], 3⟩ ∧
    read_frame_payload_resync ([77, 77, 77, 77] ++ write_frame_payload [5]) 16 2 =
      .error (.framing .MagicNotFound) :=
  ⟨by
    have h := resync_scan_cap_off_by_one [77, 77, 77] [5] 16 2 (by decide)
      (by unfold noEarlyMagic; decide) (by decide) (by decide)
    simpa using h,
   by
    have h := resync_scan_cap_off_by_one [77, 77, 77, 77] [5] 16 2 (by decide)
      (by unfold noEarlyMagic; decide) (by decide) (by decide)
    simpa using h⟩

/-! ## Claim theorems: proxy -/

/-- Claim C8 counterexample: when the stdin frame read fails, `run_proxy`
propagates the error (`?` in the source) and writes no frame at all to
stdout — no `Error` response frame is emitted, contradicting the claim
that the client always observes a well-formed response frame. -/
theorem proxy_stdin_failure_no_frame_counterexample :
    run_proxy (.err (.framing .InvalidMagic)) (.ok ()) true (.ok []) =
      ([], .error ()) := rfl

/-- Claim C8 (amended): on a stdin read failure or timeout, `run_proxy`
writes nothing to stdout and returns the error to its caller; a framed
`DaemonNotRunning` error response carrying the parsed request id (0 if
unparseable) is emitted on stdout, with exit code 4, exactly when the
stdin read succeeded and connecting to the daemon failed. -/
theorem proxy_read_failure_behavior (e : ReadError) (conn : Except ConnectError Unit)
    (streamWriteOk : Bool) (daemonRead : ReadOutcome) (payload : List Nat)
    (ce : ConnectError) :
    run_proxy (.err e) conn streamWriteOk daemonRead = ([], .error ()) ∧
    run_proxy .timeout conn streamWriteOk daemonRead = ([], .error ()) ∧
    run_proxy (.ok payload) (.error ce) streamWriteOk daemonRead =
      ([write_frame_payload (encodeResponse
        ⟨request_id_from_payload payload,
          .Error .DaemonNotRunning
            (match ce with
             | .Timeout => "daemon connect timed out"
             | .Failed m => m
             | .AutostartFailed m => m)⟩)], .ok EXIT_DAEMON_NOT_RUNNING) := by
  refine ⟨rfl, rfl, ?_⟩
  cases ce <;> rfl

/-- Claim C9: the wire codec encodes
`Request { request_id: 42, kind: Set { value: { content_type: text,
data: b"hello", created_at: 123 } } }` to exactly the pinned 35-byte
fixture, and decodes the fixture back to a structurally equal request. -/
theorem request_wire_fixture_round_trip :
    encodeRequest ⟨42, .Set ⟨CONTENT_TYPE_TEXT, [104, 101, 108, 108, 111], 123⟩⟩ =
      REQUEST_V2_SET_FIXTURE ∧
    decodeRequest REQUEST_V2_SET_FIXTURE =
      some ⟨42, .Set ⟨CONTENT_TYPE_TEXT, [104, 101, 108, 108, 111], 123⟩⟩ := by
  decide

end SshClipboard
